import Mathlib

/-!
Verification of the credential-store and permissions contract of
`mongoengine/django/mongo_auth/documents.py` (classes `AbstractBaseUser`,
`PermissionsMixin`, `AbstractUser`).

The document class delegates password hashing to an external hashing oracle
(`make_password`, `check_password`, `is_password_usable` from
`django.contrib.auth.hashers`) and permission resolution to external
authentication backends (`_user_has_perm`, `_user_has_module_perms`).  Both
collaborators are modelled abstractly: the oracle as a structure of the four
primitives the specification names in its external-interface section
(`hash`, `verify`, `needs_upgrade`, `unusable_sentinel`, plus parseability),
the backends as a structure of the two combined lookup functions.  Hash values
are an opaque type parameter `H`, matching the specification, which calls the
stored hash an opaque string never constructed or parsed by this component.

The user record is modelled as a structure holding the fields declared by
`AbstractUser` (which inherits `AbstractBaseUser` and `PermissionsMixin`).
Stateful methods are explicit state passing: `check_password` takes the
in-memory record and the persisted record and returns the boolean result
together with both updated records.
-/

/-- Hashing oracle interface. Modelled from the spec: the external hashing
oracle of `django.contrib.auth.hashers`, with the four primitives named in the
external-interface section — `hash` (encode under the current default scheme),
`verify` (compare a plaintext against a self-describing stored hash),
`needsUpgrade` (the stored hash uses a scheme weaker than the current
default), `unusableSentinel` (a fixed value never matching any plaintext) —
plus `parses`, whether the oracle can parse the stored hash at all. -/
structure HashOracle (H : Type) where
  hash : String → H
  verify : String → H → Bool
  needsUpgrade : H → Bool
  unusableSentinel : H
  parses : H → Bool

/-- Contract the hashing oracle is trusted to satisfy, from the external
interface section of the specification: a fresh default-scheme hash verifies
against its own plaintext, is parseable, is distinguishable from the unusable
sentinel, does not need an upgrade, and verifies against no other plaintext. -/
structure GoodOracle {H : Type} (O : HashOracle H) : Prop where
  matches_hash : ∀ r, O.verify r (O.hash r) = true
  hash_parses : ∀ r, O.parses (O.hash r) = true
  hash_ne_sentinel : ∀ r, O.hash r ≠ O.unusableSentinel
  hash_current : ∀ r, O.needsUpgrade (O.hash r) = false
  no_collision : ∀ r q, r ≠ q → O.verify q (O.hash r) = false

/-- The user record: the fields declared by `AbstractBaseUser` (`password`,
`last_login`), `PermissionsMixin` (`is_superuser`) and `AbstractUser`
(`username`, `first_name`, `last_name`, `email`, `is_staff`, `is_active`,
`date_joined`).  `password` is `Option H`: a `StringField` not yet assigned
is `None` in Python.  Timestamps are abstracted to integers. -/
structure UserDoc (H : Type) where
  password : Option H
  last_login : Int
  is_superuser : Bool
  username : String
  first_name : String
  last_name : String
  email : String
  is_staff : Bool
  is_active : Bool
  date_joined : Int
deriving DecidableEq

/-- The combined answer of the registered authentication backends, as consumed
by `PermissionsMixin` through the external helpers `_user_has_perm` and
`_user_has_module_perms`.  The permission and the optional object are opaque
strings. -/
structure AuthBackends (H : Type) where
  user_has_perm : UserDoc H → String → Option String → Bool
  user_has_module_perms : UserDoc H → String → Bool

/-- `django.contrib.auth.hashers.is_password_usable`: false when the stored
value is `None` or the unusable sentinel or cannot be parsed by any known
hasher; true otherwise.  Used by `has_usable_password` and as the guard of
the hashers-level `check_password`. -/
def is_password_usable {H : Type} [DecidableEq H] (O : HashOracle H) :
    Option H → Bool
  | none => false
  | some s => decide (s ≠ O.unusableSentinel) && O.parses s

/-- `AbstractBaseUser.set_password`: `self.password = make_password(raw_password)`;
for a non-`None` plaintext `make_password` encodes it under the current
default scheme, i.e. the oracle primitive `hash`. -/
def set_password {H : Type} (O : HashOracle H) (u : UserDoc H)
    (raw_password : String) : UserDoc H :=
  { u with password := some (O.hash raw_password) }

/-- `AbstractBaseUser.set_unusable_password`:
`self.password = make_password(None)`; `make_password(None)` returns the
unusable sentinel, a value that will never be a valid hash. -/
def set_unusable_password {H : Type} (O : HashOracle H) (u : UserDoc H) :
    UserDoc H :=
  { u with password := some O.unusableSentinel }

/-- `AbstractBaseUser.has_usable_password`:
`return is_password_usable(self.password)`. -/
def has_usable_password {H : Type} [DecidableEq H] (O : HashOracle H)
    (u : UserDoc H) : Bool :=
  is_password_usable O u.password

/-- Modelled from the spec: `Document.save` of the mongoengine mapping layer,
called as `self.save(update_fields=["password"])`, is not under `src/`; the
spec describes it as `save_field(record_id, field_name, value)`, an atomic
field-scoped write that must not overwrite concurrent changes to other
fields.  `u` is the in-memory record being saved, `db` the persisted record
(possibly concurrently modified); only the password field is written. -/
def save_password_field {H : Type} (u db : UserDoc H) : UserDoc H :=
  { db with password := u.password }

/-- `AbstractBaseUser.check_password`: delegates to the hashers-level
`check_password(raw_password, self.password, setter)`, whose contract the
spec states as: return false without raising when the stored hash is absent,
the unusable sentinel, or unparseable; otherwise compare via the oracle, and
when the comparison succeeds and the stored hash needs an upgrade call
`setter`, which re-hashes under the current default (`set_password`) and
persists only the password field (`save(update_fields=["password"])`).  The
boolean result of the comparison is returned either way.  Returns the result
together with the updated in-memory record and persisted record.  The
embedding is total: no execution path raises. -/
def check_password {H : Type} [DecidableEq H] (O : HashOracle H)
    (u db : UserDoc H) (raw_password : String) :
    Bool × UserDoc H × UserDoc H :=
  if is_password_usable O u.password then
    match u.password with
    | some stored =>
      let correct := O.verify raw_password stored
      if correct && O.needsUpgrade stored then
        let u2 := set_password O u raw_password
        (correct, u2, save_password_field u2 db)
      else
        (correct, u, db)
    | none => (false, u, db)
  else
    (false, u, db)

/-- `AbstractBaseUser.is_anonymous`: always returns False. -/
def is_anonymous {H : Type} (_u : UserDoc H) : Bool :=
  false

/-- `AbstractBaseUser.is_authenticated`: always returns True. -/
def is_authenticated {H : Type} (_u : UserDoc H) : Bool :=
  true

/-- `PermissionsMixin.has_perm`: active superusers have all permissions;
otherwise the backends are consulted via `_user_has_perm`. -/
def has_perm {H : Type} (B : AuthBackends H) (u : UserDoc H) (perm : String)
    (obj : Option String) : Bool :=
  if u.is_active && u.is_superuser then true
  else B.user_has_perm u perm obj

/-- `PermissionsMixin.has_perms`: iterates the permission list, returning
False at the first permission `has_perm` denies, True when the loop
finishes. -/
def has_perms {H : Type} (B : AuthBackends H) (u : UserDoc H) :
    List String → Option String → Bool
  | [], _ => true
  | perm :: rest, obj =>
    if !(has_perm B u perm obj) then false else has_perms B u rest obj

/-- `PermissionsMixin.has_module_perms`: active superusers have all
permissions; otherwise the backends are consulted via
`_user_has_module_perms`. -/
def has_module_perms {H : Type} (B : AuthBackends H) (u : UserDoc H)
    (app_label : String) : Bool :=
  if u.is_active && u.is_superuser then true
  else B.user_has_module_perms u app_label

/-- Concrete hash values for a two-scheme toy oracle: hashes produced under
the current default scheme, hashes under an outdated scheme, unparseable
values, and the unusable sentinel. -/
inductive ToyHash : Type
  | newH (raw : String)
  | oldH (raw : String)
  | bad (s : String)
  | bang
deriving DecidableEq

/-- A concrete executable hashing oracle over `ToyHash`. -/
def ToyO : HashOracle ToyHash where
  hash := ToyHash.newH
  verify := fun r h =>
    match h with
    | ToyHash.newH s => r == s
    | ToyHash.oldH s => r == s
    | _ => false
  needsUpgrade := fun h =>
    match h with
    | ToyHash.newH _ => false
    | _ => true
  unusableSentinel := ToyHash.bang
  parses := fun h =>
    match h with
    | ToyHash.newH _ => true
    | ToyHash.oldH _ => true
    | _ => false

theorem toy_good : GoodOracle ToyO where
  matches_hash := fun r => by simp [ToyO]
  hash_parses := fun r => rfl
  hash_ne_sentinel := fun r h => ToyHash.noConfusion h
  hash_current := fun r => rfl
  no_collision := fun r q hne => by
    simp only [ToyO]
    exact beq_eq_false_iff_ne.mpr fun e => hne e.symm

/-- A toy user record with the given password field and the given activity
and superuser flags. -/
def toyUser (pw : Option ToyHash) (act sup : Bool) : UserDoc ToyHash where
  password := pw
  last_login := 5
  is_superuser := sup
  username := "alice"
  first_name := "Alice"
  last_name := "Liddell"
  email := "alice@example.org"
  is_staff := false
  is_active := act
  date_joined := 3

/-- A toy backend set that grants every permission to every user. -/
def allowAll : AuthBackends ToyHash where
  user_has_perm := fun _ _ _ => true
  user_has_module_perms := fun _ _ => true

/-- A toy backend set that denies every permission to every user. -/
def denyAll : AuthBackends ToyHash where
  user_has_perm := fun _ _ _ => false
  user_has_module_perms := fun _ _ => false

/-- When the stored hash is present and usable, `check_password` returns the
result of comparing the plaintext against the stored hash, whether or not the
rehash branch is taken. -/
theorem check_password_fst {H : Type} [DecidableEq H] (O : HashOracle H)
    (u db : UserDoc H) (raw : String) (s : H) (hs : u.password = some s)
    (hus : is_password_usable O u.password = true) :
    (check_password O u db raw).fst = O.verify raw s := by
  rw [hs] at hus
  cases hb : (O.verify raw s && O.needsUpgrade s) <;>
    simp [check_password, hs, hus, hb]

/-- The persisted record after `check_password` is either untouched or is the
result of the field-scoped password write of the updated in-memory record. -/
theorem check_password_db {H : Type} [DecidableEq H] (O : HashOracle H)
    (u db : UserDoc H) (raw : String) :
    (check_password O u db raw).2.2 = db ∨
    (check_password O u db raw).2.2 =
      save_password_field (check_password O u db raw).2.1 db := by
  cases hp : u.password with
  | none => left; simp [check_password, hp]
  | some s =>
    by_cases hu : is_password_usable O (some s) = true
    · by_cases hb : (O.verify raw s && O.needsUpgrade s) = true
      · right; simp [check_password, hp, hu, hb]
      · left
        simp only [check_password, hp, hu, if_true]
        simp [hb]
    · left; simp [check_password, hp, hu]

/-- A password freshly hashed under the current default scheme is usable. -/
theorem fresh_hash_usable {H : Type} [DecidableEq H] {O : HashOracle H}
    (hO : GoodOracle O) (p : String) :
    is_password_usable O (some (O.hash p)) = true := by
  simp [is_password_usable, hO.hash_parses p, hO.hash_ne_sentinel p]

/-- C3: for every plaintext `p`, after `set_password p` the call
`check_password p` returns true and `has_usable_password` returns true. -/
theorem C3_set_password_then_check {H : Type} [DecidableEq H]
    (O : HashOracle H) (hO : GoodOracle O) (u db : UserDoc H) (p : String) :
    (check_password O (set_password O u p) db p).fst = true ∧
    has_usable_password O (set_password O u p) = true := by
  have husable : is_password_usable O (set_password O u p).password = true := by
    simpa [set_password] using fresh_hash_usable hO p
  constructor
  · rw [check_password_fst O (set_password O u p) db p (O.hash p)
      (by simp [set_password]) husable]
    exact hO.matches_hash p
  · simpa [has_usable_password] using husable

/-- C3 witness: a concrete user, oracle and plaintext. -/
theorem C3_witness :
    (check_password ToyO (set_password ToyO (toyUser none true false) "horse")
      (toyUser none true false) "horse").fst = true ∧
    has_usable_password ToyO
      (set_password ToyO (toyUser none true false) "horse") = true := by
  exact C3_set_password_then_check ToyO toy_good (toyUser none true false)
    (toyUser none true false) "horse"

/-- C4: after `set_unusable_password`, for every plaintext `p`,
`check_password p` returns false and `has_usable_password` returns false;
more generally every record whose stored hash is the unusable sentinel
reports `has_usable_password = false` and `check_password p = false` for
every input `p`. -/
theorem C4_unusable_password {H : Type} [DecidableEq H] (O : HashOracle H)
    (u db : UserDoc H) (p : String) :
    (check_password O (set_unusable_password O u) db p).fst = false ∧
    has_usable_password O (set_unusable_password O u) = false ∧
    (∀ v : UserDoc H, v.password = some O.unusableSentinel →
      (check_password O v db p).fst = false ∧
      has_usable_password O v = false) := by
  have key : ∀ v : UserDoc H, v.password = some O.unusableSentinel →
      (check_password O v db p).fst = false ∧
      has_usable_password O v = false := by
    intro v hv
    have hun : is_password_usable O v.password = false := by
      simp [is_password_usable, hv]
    constructor
    · simp [check_password, hun]
    · simpa [has_usable_password] using hun
  exact ⟨(key _ (by simp [set_unusable_password])).1,
    (key _ (by simp [set_unusable_password])).2, key⟩

/-- C4 witness: a concrete user whose password was set unusable, and a
concrete record holding the sentinel directly. -/
theorem C4_witness :
    (check_password ToyO (set_unusable_password ToyO (toyUser none true false))
      (toyUser none true false) "horse").fst = false ∧
    ((toyUser (some ToyHash.bang) true false).password =
        some ToyO.unusableSentinel ∧
      has_usable_password ToyO (toyUser (some ToyHash.bang) true false) =
        false) := by
  refine ⟨(C4_unusable_password ToyO (toyUser none true false)
    (toyUser none true false) "horse").1, rfl, ?_⟩
  exact ((C4_unusable_password ToyO (toyUser none true false)
    (toyUser none true false) "horse").2.2
    (toyUser (some ToyHash.bang) true false) rfl).2

/-- C5: for distinct plaintexts `p` and `q`, after `set_password p` the call
`check_password q` returns false. -/
theorem C5_wrong_password_rejected {H : Type} [DecidableEq H]
    (O : HashOracle H) (hO : GoodOracle O) (u db : UserDoc H) (p q : String)
    (hpq : p ≠ q) :
    (check_password O (set_password O u p) db q).fst = false := by
  have husable : is_password_usable O (set_password O u p).password = true := by
    simpa [set_password] using fresh_hash_usable hO p
  rw [check_password_fst O (set_password O u p) db q (O.hash p)
    (by simp [set_password]) husable]
  exact hO.no_collision p q hpq

/-- C5 witness: two concrete distinct plaintexts. -/
theorem C5_witness :
    "horse" ≠ "battery" ∧
    (check_password ToyO (set_password ToyO (toyUser none true false) "horse")
      (toyUser none true false) "battery").fst = false :=
  ⟨by decide, C5_wrong_password_rejected ToyO toy_good (toyUser none true false)
    (toyUser none true false) "horse" "battery" (by decide)⟩

/-- C6: when the stored hash cannot be parsed by the oracle,
`check_password` returns false and leaves both the in-memory record and the
persisted record unchanged; the embedding is total, so no path raises. -/
theorem C6_malformed_hash_rejected {H : Type} [DecidableEq H]
    (O : HashOracle H) (u db : UserDoc H) (raw : String) (s : H)
    (hs : u.password = some s) (hbad : O.parses s = false) :
    check_password O u db raw = (false, u, db) := by
  have hun : is_password_usable O u.password = false := by
    simp [is_password_usable, hs, hbad]
  simp [check_password, hun]

/-- C6 witness: a concrete record holding an unparseable stored hash. -/
theorem C6_witness :
    (toyUser (some (ToyHash.bad "garbage")) true false).password =
        some (ToyHash.bad "garbage") ∧
    ToyO.parses (ToyHash.bad "garbage") = false ∧
    check_password ToyO (toyUser (some (ToyHash.bad "garbage")) true false)
        (toyUser none true false) "horse" =
      (false, toyUser (some (ToyHash.bad "garbage")) true false,
        toyUser none true false) :=
  ⟨rfl, rfl, C6_malformed_hash_rejected ToyO
    (toyUser (some (ToyHash.bad "garbage")) true false)
    (toyUser none true false) "horse" (ToyHash.bad "garbage") rfl rfl⟩

/-- C1: for a credential whose usable stored hash the oracle flags as needing
an upgrade, a single successful `check_password p` returns the result of the
original comparison, replaces the stored hash in memory and in the persisted
record with a hash produced under the current default scheme, the new hash
does not need an upgrade, a subsequent `check_password p` still returns true,
and the result returned is the comparison result for every usable credential
whether or not rehashing occurred. -/
theorem C1_rehash_on_verify {H : Type} [DecidableEq H] (O : HashOracle H)
    (hO : GoodOracle O) (u db : UserDoc H) (p : String) (s : H)
    (hs : u.password = some s)
    (husable : is_password_usable O u.password = true)
    (hupg : O.needsUpgrade s = true)
    (hmatch : O.verify p s = true) :
    (check_password O u db p).fst = O.verify p s ∧
    ((check_password O u db p).2.1).password = some (O.hash p) ∧
    ((check_password O u db p).2.2).password = some (O.hash p) ∧
    O.needsUpgrade (O.hash p) = false ∧
    (check_password O (check_password O u db p).2.1
      (check_password O u db p).2.2 p).fst = true ∧
    (∀ (v : UserDoc H) (t : H), v.password = some t →
      is_password_usable O v.password = true →
      (check_password O v db p).fst = O.verify p t) := by
  rw [hs] at husable
  have hred : check_password O u db p =
      (true, set_password O u p, save_password_field (set_password O u p) db) := by
    simp [check_password, hs, husable, hmatch, hupg]
  refine ⟨?_, ?_, ?_, hO.hash_current p, ?_, ?_⟩
  · rw [hred, hmatch]
  · rw [hred]; simp [set_password]
  · rw [hred]; simp [save_password_field, set_password]
  · rw [hred]
    have hus2 : is_password_usable O (set_password O u p).password = true := by
      simpa [set_password] using fresh_hash_usable hO p
    rw [check_password_fst O (set_password O u p) _ p (O.hash p)
      (by simp [set_password]) hus2]
    exact hO.matches_hash p
  · intro v t hv hvus
    exact check_password_fst O v db p t hv hvus

/-- C1 witness: a concrete credential stored under the outdated scheme. -/
theorem C1_witness :
    (toyUser (some (ToyHash.oldH "horse")) true false).password =
        some (ToyHash.oldH "horse") ∧
    is_password_usable ToyO
        (toyUser (some (ToyHash.oldH "horse")) true false).password = true ∧
    ToyO.needsUpgrade (ToyHash.oldH "horse") = true ∧
    ToyO.verify "horse" (ToyHash.oldH "horse") = true ∧
    ((check_password ToyO (toyUser (some (ToyHash.oldH "horse")) true false)
        (toyUser (some (ToyHash.oldH "horse")) true false) "horse").2.1).password =
      some (ToyHash.newH "horse") :=
  ⟨rfl, by decide, rfl, by decide,
    (C1_rehash_on_verify ToyO toy_good
      (toyUser (some (ToyHash.oldH "horse")) true false)
      (toyUser (some (ToyHash.oldH "horse")) true false) "horse"
      (ToyHash.oldH "horse") rfl (by decide) rfl (by decide)).2.1⟩

/-- C2: the persisted record after `check_password` keeps the prior value of
every field other than `password`; its `password` field is either the
rehashed in-memory password (when the rehash write happened) or untouched,
so a concurrent write to an unrelated field of the persisted record and the
rehashed password are both present afterwards. -/
theorem C2_rehash_write_is_field_scoped {H : Type} [DecidableEq H]
    (O : HashOracle H) (u db : UserDoc H) (raw : String) :
    ((check_password O u db raw).2.2).last_login = db.last_login ∧
    ((check_password O u db raw).2.2).is_superuser = db.is_superuser ∧
    ((check_password O u db raw).2.2).username = db.username ∧
    ((check_password O u db raw).2.2).first_name = db.first_name ∧
    ((check_password O u db raw).2.2).last_name = db.last_name ∧
    ((check_password O u db raw).2.2).email = db.email ∧
    ((check_password O u db raw).2.2).is_staff = db.is_staff ∧
    ((check_password O u db raw).2.2).is_active = db.is_active ∧
    ((check_password O u db raw).2.2).date_joined = db.date_joined ∧
    (((check_password O u db raw).2.2).password =
        ((check_password O u db raw).2.1).password ∨
      (check_password O u db raw).2.2 = db) := by
  rcases check_password_db O u db raw with h | h
  · rw [h]
    exact ⟨rfl, rfl, rfl, rfl, rfl, rfl, rfl, rfl, rfl, Or.inr rfl⟩
  · rw [h]
    exact ⟨rfl, rfl, rfl, rfl, rfl, rfl, rfl, rfl, rfl, Or.inl rfl⟩

/-- An inactive superuser: `is_active = false`, `is_superuser = true`. -/
def inactiveSuper : UserDoc ToyHash :=
  toyUser (some (ToyHash.newH "horse")) false true

/-- C7 counterexample: for a user with `is_active = false` the claim says
every permission check returns false, but with a backend set that grants the
permission, `has_perm` returns true: the code does not short-circuit on
inactivity, it falls through to the backends. -/
theorem C7_counterexample :
    inactiveSuper.is_active = false ∧
    has_perm allowAll inactiveSuper "app.change_thing" none = true ∧
    has_module_perms allowAll inactiveSuper "app" = true := by
  exact ⟨rfl, rfl, rfl⟩

/-- C7 amended: for every user with `is_active = false` the superuser
short-circuit does not apply, and `has_perm` and `has_module_perms` return
exactly the result of consulting the backends (so the checks return false
whenever the backends deny, regardless of `is_superuser`, but not
unconditionally). -/
theorem C7_inactive_falls_through_to_backends {H : Type}
    (B : AuthBackends H) (u : UserDoc H) (hact : u.is_active = false)
    (perm : String) (obj : Option String) (app_label : String) :
    has_perm B u perm obj = B.user_has_perm u perm obj ∧
    has_module_perms B u app_label = B.user_has_module_perms u app_label := by
  constructor
  · simp [has_perm, hact]
  · simp [has_module_perms, hact]

/-- C7 witness: a concrete inactive superuser against a denying backend set. -/
theorem C7_witness :
    inactiveSuper.is_active = false ∧
    has_perm denyAll inactiveSuper "app.change_thing" none =
      denyAll.user_has_perm inactiveSuper "app.change_thing" none ∧
    has_module_perms denyAll inactiveSuper "app" =
      denyAll.user_has_module_perms inactiveSuper "app" :=
  ⟨rfl,
    (C7_inactive_falls_through_to_backends denyAll inactiveSuper rfl
      "app.change_thing" none "app").1,
    (C7_inactive_falls_through_to_backends denyAll inactiveSuper rfl
      "app.change_thing" none "app").2⟩

/-- C8: for every user with `is_superuser = true` and `is_active = true`,
`has_perm` (for every permission and object) and `has_module_perms` (for
every app label) return true for every backend set, i.e. without consulting
the backends. -/
theorem C8_active_superuser_has_all_perms {H : Type} (B : AuthBackends H)
    (u : UserDoc H) (hact : u.is_active = true) (hsup : u.is_superuser = true)
    (perm : String) (obj : Option String) (app_label : String) :
    has_perm B u perm obj = true ∧
    has_module_perms B u app_label = true := by
  constructor
  · simp [has_perm, hact, hsup]
  · simp [has_module_perms, hact, hsup]

/-- C8 witness: a concrete active superuser against a denying backend set. -/
theorem C8_witness :
    (toyUser none true true).is_active = true ∧
    (toyUser none true true).is_superuser = true ∧
    has_perm denyAll (toyUser none true true) "app.change_thing" none = true ∧
    has_module_perms denyAll (toyUser none true true) "app" = true :=
  ⟨rfl, rfl,
    (C8_active_superuser_has_all_perms denyAll (toyUser none true true) rfl rfl
      "app.change_thing" none "app").1,
    (C8_active_superuser_has_all_perms denyAll (toyUser none true true) rfl rfl
      "app.change_thing" none "app").2⟩

/-- C9: `has_perms perm_list obj` returns true exactly when `has_perm` grants
every permission in the list, and in particular returns true on the empty
list for every user and backend set. -/
theorem C9_has_perms_iff_all {H : Type} (B : AuthBackends H) (u : UserDoc H)
    (obj : Option String) (perm_list : List String) :
    (has_perms B u perm_list obj = true ↔
      ∀ perm ∈ perm_list, has_perm B u perm obj = true) ∧
    has_perms B u [] obj = true := by
  refine ⟨?_, rfl⟩
  induction perm_list with
  | nil => simp [has_perms]
  | cons p rest ih =>
    cases hp : has_perm B u p obj with
    | false => simp [has_perms, hp]
    | true => simp [has_perms, hp, ih]

/-- C10: `is_anonymous` returns false and `is_authenticated` returns true on
every user record, independent of every field. -/
theorem C10_anonymous_authenticated {H : Type} (u : UserDoc H) :
    is_anonymous u = false ∧ is_authenticated u = true :=
  ⟨rfl, rfl⟩
